import Mathlib

/-!
# ServerStatusRust — Metrics Sampling Engine, shallow embedding

Shallow embedding of `src/client/src/status.rs` (the metrics sampling
engine of ServerStatusRust).  Conventions used throughout:

* Rust `u64` values are modelled as `Nat`; where the source performs
  `u64` arithmetic that can overflow or underflow, the release-build
  semantics (two's-complement wrapping modulo `2^64`) is made explicit
  with `% U64M` / `wsub64`.
* A Rust panic (`unwrap` on `Err`/`None`, out-of-bounds index, missing
  `HashMap` key) is modelled by returning `Option.none` from the
  embedded function.
* Rust `f64` values entering the CPU-percent computation are modelled
  exactly as rationals (`ℚ`); `f64::round` (round half away from zero)
  is `rustRound`.  For the network-rate computation, where division by
  zero genuinely occurs, the relevant IEEE-754 behaviour (±infinity,
  NaN, and the saturating `as u64` cast) is modelled by `F64`.
* Text is modelled as `List Char`; Rust's `str::split`,
  `str::split_whitespace`, `str::trim` and the two regular expressions
  of the source are implemented directly over character lists.
* Functions that perform I/O in the source (reading `/proc` files,
  running external commands) are modelled as functions of the text they
  would have read; the outer `unwrap` on the I/O itself is outside the
  model.
-/

/-- `2^64`, the wrap-around modulus of Rust's `u64`. -/
def U64M : Nat := 2 ^ 64

/-- Wrapping `u64` subtraction `a - b` (release-build overflow semantics
of a Rust `u64` subtraction). -/
def wsub64 (a b : Nat) : Nat := (a + U64M - b % U64M) % U64M

/-- Numeric value of a list of ASCII digits (most significant first). -/
def digitsToNat (ds : List Char) : Nat :=
  ds.foldl (fun a c => a * 10 + (c.toNat - 48)) 0

/-- Rust `str::parse::<u64>()`: an optional leading `+`, then a nonempty
run of ASCII digits whose value fits in `u64`; anything else is `Err`
(modelled `none`). -/
def parseU64 (cs : List Char) : Option Nat :=
  let ds := if cs.head? = some '+' then cs.tail else cs
  if ds.isEmpty then none
  else if ds.all Char.isDigit then
    if digitsToNat ds < U64M then some (digitsToNat ds) else none
  else none

/-- Rust `str::split(sep)` over characters: the list of (possibly empty)
chunks between occurrences of `sep`.  Always nonempty. -/
def splitOnChar (sep : Char) : List Char → List (List Char)
  | [] => [[]]
  | c :: cs =>
    if c = sep then [] :: splitOnChar sep cs
    else
      match splitOnChar sep cs with
      | [] => [[c]]
      | g :: gs => (c :: g) :: gs

/-- Helper for `splitWS`: `cur` is the reversed token currently being
accumulated. -/
def splitWSAux (cur : List Char) : List Char → List (List Char)
  | [] => if cur.isEmpty then [] else [cur.reverse]
  | c :: cs =>
    if c.isWhitespace then
      if cur.isEmpty then splitWSAux [] cs
      else cur.reverse :: splitWSAux [] cs
    else splitWSAux (c :: cur) cs

/-- Rust `str::split_whitespace()` over characters: maximal nonempty
runs of non-whitespace characters. -/
def splitWS (l : List Char) : List (List Char) := splitWSAux [] l

/-- Rust `str::trim()`: strip leading and trailing whitespace. -/
def rustTrim (cs : List Char) : List Char :=
  ((cs.dropWhile Char.isWhitespace).reverse.dropWhile Char.isWhitespace).reverse

/-- Does `needle` occur as a prefix of `hay`? -/
def startsWith : List Char → List Char → Bool
  | [], _ => true
  | _ :: _, [] => false
  | a :: as, b :: bs => a = b && startsWith as bs

/-- Rust `str::contains(pat)` for a string pattern: `needle` occurs as a
contiguous substring of `hay` (an empty needle always matches). -/
def containsSub (hay needle : List Char) : Bool :=
  startsWith needle hay ||
    match hay with
    | [] => false
    | _ :: hs => containsSub hs needle

/-!
## Interface filter (status.rs line 88)

```rust
static IFACE_IGNORE_VEC: &[&str] = &["lo", "docker", "vnet", "veth", "vmbr", "kube", "br-"];
```
-/

/-- The interface-name filter substrings. -/
def IFACE_IGNORE_VEC : List (List Char) :=
  ["lo".data, "docker".data, "vnet".data, "veth".data, "vmbr".data,
   "kube".data, "br-".data]

/-- `IFACE_IGNORE_VEC.iter().any(|sk| name.contains(*sk))`. -/
def ifaceIgnored (name : List Char) : Bool :=
  IFACE_IGNORE_VEC.any (fun sk => containsSub name sk)

/-!
## `get_uptime` (status.rs lines 28–37)

```rust
if let Some(s) = contents.split('.').next() {
    return s.parse::<u64>().unwrap_or(0);
}
0
```
The function is given the contents of `/proc/uptime`.
-/

/-- `get_uptime`, as a function of the uptime source text. -/
def get_uptime (contents : List Char) : Nat :=
  match (splitOnChar '.' contents).head? with
  | some s => (parseU64 s).getD 0
  | none => 0

/-!
## `get_memory` (status.rs lines 57–86)

The memory regex is `^(?P<key>\S*):\s*(?P<value>\d*)\s*kB`, applied to
each line of `/proc/meminfo`; matched `(key, value)` pairs are inserted
into a `HashMap` (later lines overwrite earlier ones), and seven
required keys are then read back (a missing key panics, as does a value
capture that fails `parse::<u64>()`).

`memTail` matches the part of the pattern after the colon.  For this
pattern, greedy matching with backtracking collapses to the greedy
parse: shortening `\s*` leaves a whitespace character where `kB` or a
digit is required, and shortening `\d*` leaves a digit where `kB` or
whitespace is required.  Backtracking is only observable in the choice
of the end of the `\S*` key capture (the key may itself contain `:`),
which `memTryEnds` performs longest-first.
-/

/-- Match `\s*(\d*)\s*kB` against `cs`, returning the `value` capture. -/
def memTail (cs : List Char) : Option (List Char) :=
  let cs1 := cs.dropWhile Char.isWhitespace
  let ds := cs1.takeWhile Char.isDigit
  let cs2 := (cs1.dropWhile Char.isDigit).dropWhile Char.isWhitespace
  if cs2.take 2 = ['k', 'B'] then some ds else none

/-- Match the memory pattern with key capture ending exactly at `e`
(position `e` must hold the `:`). -/
def memNameAt (l : List Char) (e : Nat) : Option (List Char × List Char) :=
  if l[e]? = some ':' then (memTail (l.drop (e + 1))).map (fun v => (l.take e, v))
  else none

/-- Try key-capture end positions `e, e-1, …, 0` (greedy `\S*` tries the
longest capture first). -/
def memTryEnds (l : List Char) : Nat → Option (List Char × List Char)
  | 0 => memNameAt l 0
  | e + 1 =>
    match memNameAt l (e + 1) with
    | some r => some r
    | none => memTryEnds l e

/-- Match `^(?P<key>\S*):\s*(?P<value>\d*)\s*kB` against a whole line,
returning the two captures.  The `:` must sit inside the maximal
leading run of non-whitespace characters. -/
def memLineMatch (l : List Char) : Option (List Char × List Char) :=
  let run := l.takeWhile (fun x => !x.isWhitespace)
  if run.isEmpty then none else memTryEnds l (run.length - 1)

/-- Scan the lines of `/proc/meminfo`, building the key/value map as an
association list with the most recent insertion first (mirroring
`HashMap::insert` overwrite semantics under `List.lookup`).  A matched
line whose value capture fails `parse::<u64>()` panics (`none`). -/
def memScanAux (dict : List (List Char × Nat)) :
    List (List Char) → Option (List (List Char × Nat))
  | [] => some dict
  | l :: ls =>
    match memLineMatch l with
    | none => memScanAux dict ls
    | some (k, v) =>
      match parseU64 v with
      | none => none
      | some n => memScanAux ((k, n) :: dict) ls

/-- Parse all lines of the memory table into the key/value map. -/
def memScan (lines : List (List Char)) : Option (List (List Char × Nat)) :=
  memScanAux [] lines

/-- Read back the seven required keys from the parsed map and compute
the result tuple of `get_memory`; a missing key is the `HashMap` index
panic (`none`), and the `mem_used` chain
`mem_total - MemFree - Buffers - Cached - SReclaimable` is `u64`
subtraction, hence the `wsub64` chain.  Lookups appear in source
evaluation order. -/
def memCompute (dict : List (List Char × Nat)) : Option (Nat × Nat × Nat × Nat) :=
  match dict.lookup "MemTotal".data with
    | none => none
    | some memTotal =>
      match dict.lookup "SwapTotal".data with
      | none => none
      | some swapTotal =>
        match dict.lookup "SwapFree".data with
        | none => none
        | some swapFree =>
          match dict.lookup "MemFree".data with
          | none => none
          | some memFree =>
            match dict.lookup "Buffers".data with
            | none => none
            | some buffers =>
              match dict.lookup "Cached".data with
              | none => none
              | some cached =>
                match dict.lookup "SReclaimable".data with
                | none => none
                | some sreclaimable =>
                  some (memTotal,
                    wsub64 (wsub64 (wsub64 (wsub64 memTotal memFree) buffers) cached)
                      sreclaimable,
                    swapTotal, swapFree)

/-- `get_memory`, as a function of the lines of `/proc/meminfo`.
Returns `(mem_total, mem_used, swap_total, swap_free)`; `none` models a
panic. -/
def get_memory (lines : List (List Char)) : Option (Nat × Nat × Nat × Nat) :=
  match memScan lines with
  | none => none
  | some dict => memCompute dict

/-!
## `get_sys_traffic` (status.rs lines 124–151)

The traffic regex is
`([^\s]+):[\s]{0,}(\d+)\s+(\d+)\s+…\s+(\d+)` (eleven `(\d+)` groups),
searched (unanchored) in each line of `/proc/net/dev`.  As with the
memory pattern, backtracking inside the numeric tail collapses to the
greedy parse (shortening a `\d+` leaves a digit where whitespace is
required and vice versa); backtracking is observable only in the choice
of the end of the `[^\s]+` name capture, tried longest-first, and in
the leftmost choice of the match start position.
-/

/-- Match `n` consecutive `(\d+)` groups separated by `\s+`, greedily,
starting at `cs`; the pattern is not anchored at the end, so trailing
characters after the last group are ignored. -/
def grabGroups : Nat → List Char → Option (List (List Char))
  | 0, _ => some []
  | n + 1, cs =>
    let ds := cs.takeWhile Char.isDigit
    if ds.isEmpty then none
    else
      let rest := cs.dropWhile Char.isDigit
      match n with
      | 0 => some [ds]
      | m + 1 =>
        if (rest.takeWhile Char.isWhitespace).isEmpty then none
        else (grabGroups (m + 1) (rest.dropWhile Char.isWhitespace)).map (ds :: ·)

/-- Match `[\s]{0,}(\d+)(\s+(\d+)){10}` (the part of the traffic pattern
after the colon), returning the eleven digit-group captures. -/
def trafficTail (cs : List Char) : Option (List (List Char)) :=
  grabGroups 11 (cs.dropWhile Char.isWhitespace)

/-- Match the traffic pattern with name capture ending exactly at `e`
(position `e` must hold the `:`). -/
def trafficNameAt (l : List Char) (e : Nat) :
    Option (List Char × List (List Char)) :=
  if l[e]? = some ':' then (trafficTail (l.drop (e + 1))).map (fun gs => (l.take e, gs))
  else none

/-- Try name-capture end positions `e, e-1, …, 1` (the name is nonempty,
and greedy `[^\s]+` tries the longest capture first). -/
def trafficTryEnds (l : List Char) : Nat → Option (List Char × List (List Char))
  | 0 => none
  | e + 1 =>
    match trafficNameAt l (e + 1) with
    | some r => some r
    | none => trafficTryEnds l e

/-- Unanchored leftmost search of the traffic pattern in a line.  At
each start position the name capture must lie inside the maximal run of
non-whitespace characters starting there. -/
def trafficSearch : List Char → Option (List Char × List (List Char))
  | [] => none
  | c :: cs =>
    let run := (c :: cs).takeWhile (fun x => !x.isWhitespace)
    match (if run.isEmpty then none else trafficTryEnds (c :: cs) (run.length - 1)) with
    | some r => some r
    | none => trafficSearch cs

/-- Process one `/proc/net/dev` line of `get_sys_traffic`: no regex
match or a filtered interface name contributes nothing; otherwise
capture 2 (the first numeric field) is added to `network_in` and
capture 10 (the ninth numeric field) to `network_out`, with
`parse::<u64>().unwrap()` panicking (`none`) on overflow. -/
def trafficStep (acc : Nat × Nat) (l : List Char) : Option (Nat × Nat) :=
  match trafficSearch l with
  | none => some acc
  | some (name, gs) =>
    if ifaceIgnored name then some acc
    else
      match parseU64 (gs.headD []) with
      | none => none
      | some rx =>
        match parseU64 (gs[8]?.getD []) with
        | none => none
        | some tx => some ((acc.1 + rx) % U64M, (acc.2 + tx) % U64M)

/-- `get_sys_traffic`, as a function of the lines of `/proc/net/dev`. -/
def get_sys_traffic (lines : List (List Char)) : Option (Nat × Nat) :=
  lines.foldlM trafficStep (0, 0)

/-!
## `get_hdd` (status.rs lines 153–172)

```rust
s.trim().split('\n').last().map(|s| {
    let vec: Vec<&str> = s.split_whitespace().collect();
    hdd_total = vec[2].parse::<u64>().unwrap();
    hdd_used = vec[3].parse::<u64>().unwrap();
    ...
```
The function is given the stdout of the `df` invocation as text (the
`str::from_utf8` failure path, on which both values stay `0`, is the
only non-panicking failure path and lies outside this text model).
`vec[2]` / `vec[3]` out-of-bounds indexing and the two `unwrap`s panic
(`none`). -/
def get_hdd (out : List Char) : Option (Nat × Nat) :=
  let lastLine := (splitOnChar '\n' (rustTrim out)).getLastD []
  let vec := splitWS lastLine
  match vec[2]? with
  | none => none
  | some t2 =>
    match parseU64 t2 with
    | none => none
    | some total =>
      match vec[3]? with
      | none => none
      | some t3 => (parseU64 t3).map (fun used => (total, used))

/-!
## `get_vnstat_traffic` (status.rs lines 89–122)

The function is given the decoded shape of the vnstat JSON (`interfaces`
array with `name`, `traffic.total.{rx,tx}` and `traffic.month[]`
entries carrying `date.{year,month}` and `rx`/`tx`), plus the current
local year and month.  Invoking the tool and decoding the JSON are
fatal on failure in the source and lie outside this model.
-/

/-- One entry of an interface's `traffic.month` array. -/
structure VnstatMonth where
  year : Int
  month : Nat
  rx : Nat
  tx : Nat
deriving DecidableEq

/-- One entry of the vnstat `interfaces` array. -/
structure VnstatIface where
  name : List Char
  totalRx : Nat
  totalTx : Nat
  months : List VnstatMonth
deriving DecidableEq

/-- The inner month loop: `continue` unless the entry's year and month
both equal the current local ones, else accumulate `rx`/`tx` into the
month totals (wrapping `u64` addition). -/
def vnstatMonthAcc (y : Int) (m : Nat) (acc : Nat × Nat) :
    List VnstatMonth → Nat × Nat
  | [] => acc
  | e :: es =>
    if y ≠ e.year ∨ m ≠ e.month then vnstatMonthAcc y m acc es
    else vnstatMonthAcc y m ((acc.1 + e.rx) % U64M, (acc.2 + e.tx) % U64M) es

/-- The outer interface loop: `continue` on filtered names, else
accumulate the all-time totals and run the month loop. -/
def vnstatIfaceAcc (y : Int) (m : Nat) (acc : Nat × Nat × Nat × Nat) :
    List VnstatIface → Nat × Nat × Nat × Nat
  | [] => acc
  | i :: is =>
    if ifaceIgnored i.name then vnstatIfaceAcc y m acc is
    else
      let (a, b, c, d) := acc
      let cd := vnstatMonthAcc y m (c, d) i.months
      vnstatIfaceAcc y m ((a + i.totalRx) % U64M, (b + i.totalTx) % U64M, cd.1, cd.2) is

/-- `get_vnstat_traffic`: returns
`(network_in, network_out, m_network_in, m_network_out)`. -/
def get_vnstat_traffic (y : Int) (m : Nat) (ifaces : List VnstatIface) :
    Nat × Nat × Nat × Nat :=
  vnstatIfaceAcc y m (0, 0, 0, 0) ifaces

/-!
## `start_net_speed_collect_t` (status.rs lines 174–227)

Each tick sums the receive and transmit counters over the non-filtered
interfaces of `/proc/net/dev` (`net_dev_sum`), then publishes the new
rates into the shared `NetSpeed` state (`netSpeedTick`):

```rust
t.diff = now - t.clock;
t.clock = now;
t.netrx = ((avgrx - t.avgrx) as f64 / t.diff) as u64;
t.nettx = ((avgtx - t.avgtx) as f64 / t.diff) as u64;
t.avgrx = avgrx;
t.avgtx = avgtx;
```
-/

/-- The shared network-rate state `NetSpeed` (`diff`/`clock` are `f64`
seconds, modelled as exact rationals; the rest are `u64`). -/
structure NetSpeed where
  diff : ℚ
  clock : ℚ
  netrx : Nat
  nettx : Nat
  avgrx : Nat
  avgtx : Nat
deriving DecidableEq

/-- The subset of `f64` values reachable in the rate computation:
finite values (kept exact as rationals), the two infinities, and NaN. -/
inductive F64 where
  | finite (q : ℚ)
  | posInf
  | negInf
  | nan
deriving DecidableEq

/-- IEEE-754 division of a finite `f64` by a finite `f64`: division by
zero yields NaN (for a zero numerator) or a signed infinity; otherwise
the finite quotient (modelled exactly). -/
def f64Div (num den : ℚ) : F64 :=
  if den = 0 then
    if num = 0 then F64.nan else if 0 < num then F64.posInf else F64.negInf
  else F64.finite (num / den)

/-- Rust `as u64` on an `f64`: saturating cast — NaN and values below 0
go to 0, values at or above `u64::MAX` go to `u64::MAX`, finite values
in range are truncated toward zero. -/
def f64AsU64 : F64 → Nat
  | F64.finite q => if q < 0 then 0 else min (Int.toNat ⌊q⌋) (U64M - 1)
  | F64.posInf => U64M - 1
  | F64.negInf => 0
  | F64.nan => 0

/-- One `/proc/net/dev` line of the sampler's counter loop:

```rust
let v: Vec<&str> = l.split(':').collect();
if v.len() < 2 { continue; }
if IFACE_IGNORE_VEC.iter().any(|sk| v[0].contains(*sk)) { continue; }
let v1: Vec<&str> = v[1].split_whitespace().collect();
avgrx += v1[0].parse::<u64>().unwrap();
avgtx += v1[8].parse::<u64>().unwrap();
```
Out-of-bounds `v1[0]`/`v1[8]` and the `unwrap`s panic (`none`). -/
def netDevStep (acc : Nat × Nat) (l : List Char) : Option (Nat × Nat) :=
  let v := splitOnChar ':' l
  if v.length < 2 then some acc
  else if ifaceIgnored (v.headD []) then some acc
  else
    let v1 := splitWS ((v[1]?).getD [])
    match v1[0]? with
    | none => none
    | some t0 =>
      match parseU64 t0 with
      | none => none
      | some rx =>
        match v1[8]? with
        | none => none
        | some t8 =>
          match parseU64 t8 with
          | none => none
          | some tx => some ((acc.1 + rx) % U64M, (acc.2 + tx) % U64M)

/-- The sampler's per-tick counter sums over all lines. -/
def net_dev_sum (lines : List (List Char)) : Option (Nat × Nat) :=
  lines.foldlM netDevStep (0, 0)

/-- One publication step of the network rate sampler, given the freshly
summed counters `avgrx`/`avgtx` and the current wall-clock seconds
`now`.  The counter deltas are `u64` subtractions (wrapping), cast to
`f64` and divided by the new `diff`; the quotient is cast back with
`as u64`. -/
def netSpeedTick (t : NetSpeed) (now : ℚ) (avgrx avgtx : Nat) : NetSpeed :=
  let diff := now - t.clock
  { diff := diff
    clock := now
    netrx := f64AsU64 (f64Div ((wsub64 avgrx t.avgrx : Nat) : ℚ) diff)
    nettx := f64AsU64 (f64Div ((wsub64 avgtx t.avgtx : Nat) : ℚ) diff)
    avgrx := avgrx
    avgtx := avgtx }

/-!
## `start_cpu_percent_collect_t` (status.rs lines 229–270)

Each tick extracts the four counter fields of the first `/proc/stat`
line and computes

```rust
let pre: u64 = pre_cpu.iter().sum();
let cur: u64 = cur_cpu.iter().sum();
let mut st = cur - pre;
if st == 0 { st = 1; }
let res = 100.0 - (100.0 * (cur_cpu[3] - pre_cpu[3]) as f64 / st as f64);
...
*cpu_percent = res.round();
```
The `f64` arithmetic is modelled exactly over `ℚ`.
-/

/-- The `if st == 0 { st = 1; }` clamp. -/
def clampTot (st : Nat) : Nat := if st = 0 then 1 else st

/-- `iter().sum::<u64>()` (wrapping `u64` addition). -/
def u64SumWrap (l : List Nat) : Nat := l.foldl (fun a b => (a + b) % U64M) 0

/-- `f64::round`: round half away from zero. -/
def rustRound (q : ℚ) : Int := if 0 ≤ q then round q else -round (-q)

/-- The busy-percent value `res` of one CPU sampler tick, before
rounding; `none` models the panic of `cur_cpu[3]` / `pre_cpu[3]` on a
vector with fewer than four fields. -/
def cpu_percent_tick (pre_cpu cur_cpu : List Nat) : Option ℚ :=
  let pre := u64SumWrap pre_cpu
  let cur := u64SumWrap cur_cpu
  let st := clampTot (wsub64 cur pre)
  match cur_cpu[3]?, pre_cpu[3]? with
  | some c3, some p3 => some (100 - 100 * ((wsub64 c3 p3 : Nat) : ℚ) / (st : ℚ))
  | _, _ => none

/-- The value published into `G_CPU_PERCENT` by one tick:
`res.round()`. -/
def cpu_percent_publish (pre_cpu cur_cpu : List Nat) : Option Int :=
  (cpu_percent_tick pre_cpu cur_cpu).map rustRound

/-!
## `sample` (status.rs lines 294–350)

`sample` populates a `StatRequest` from the collectors, the
configuration and the two shared rate states.  `StatRequest` is defined
in the external `stat_common` crate; its fields here are the ones
`sample` writes, plus the two connectivity flags.

Modelled from the spec: the snapshot record (`StatRequest`) carries
"two connectivity booleans (currently computed but not wired into the
assembler call)"; they appear here as `online4` / `online6` so that
frame effects of `sample` on them can be stated.  The load averages are
taken pre-parsed (float parsing of `/proc/loadavg` is not needed by any
claim), and the wall clock / probe results reach `sample` through
`SampleEnv`.
-/

/-- The command-line options, restricted to the field `sample` reads. -/
structure Args where
  vnstat : Bool

/-- The snapshot record populated by `sample` (external wire schema;
fields written by `sample`, plus the two connectivity flags). -/
structure StatRequest where
  version : List Char
  vnstat : Bool
  uptime : Nat
  load_1 : ℚ
  load_5 : ℚ
  load_15 : ℚ
  memory_total : Nat
  memory_used : Nat
  swap_total : Nat
  swap_used : Nat
  hdd_total : Nat
  hdd_used : Nat
  network_in : Nat
  network_out : Nat
  last_network_in : Nat
  last_network_out : Nat
  cpu : ℚ
  network_rx : Nat
  network_tx : Nat
  online4 : Bool
  online6 : Bool
deriving DecidableEq

/-- Everything `sample` observes from the outside world: the texts the
collectors would read, the pre-parsed load averages, the current local
date, and the two shared rate states. -/
structure SampleEnv where
  version : List Char
  uptimeSrc : List Char
  load1 : ℚ
  load5 : ℚ
  load15 : ℚ
  memLines : List (List Char)
  hddOut : List Char
  nowYear : Int
  nowMonth : Nat
  vnstatIfaces : List VnstatIface
  netDevLines : List (List Char)
  cpuPercent : ℚ
  netSpeed : NetSpeed

/-- `sample`: populate `stat` field by field, in source order.  `none`
models a panic inside a fatal collector (`get_memory`, or the panicking
paths of `get_hdd` / `get_sys_traffic`). -/
def sample (args : Args) (env : SampleEnv) (stat : StatRequest) :
    Option StatRequest :=
  let stat := { stat with version := env.version, vnstat := args.vnstat }
  let stat := { stat with uptime := get_uptime env.uptimeSrc }
  let stat := { stat with load_1 := env.load1, load_5 := env.load5,
                          load_15 := env.load15 }
  match get_memory env.memLines with
  | none => none
  | some (memTotal, memUsed, swapTotal, swapFree) =>
    let stat := { stat with memory_total := memTotal, memory_used := memUsed,
                            swap_total := swapTotal,
                            swap_used := wsub64 swapTotal swapFree }
    match get_hdd env.hddOut with
    | none => none
    | some (hddTotal, hddUsed) =>
      let stat := { stat with hdd_total := hddTotal, hdd_used := hddUsed }
      let afterTraffic :=
        if args.vnstat then
          match get_vnstat_traffic env.nowYear env.nowMonth env.vnstatIfaces with
          | (ni, nout, mi, mo) =>
            some { stat with network_in := ni, network_out := nout,
                             last_network_in := wsub64 ni mi,
                             last_network_out := wsub64 nout mo }
        else
          match get_sys_traffic env.netDevLines with
          | none => none
          | some (ni, nout) =>
            some { stat with network_in := ni, network_out := nout }
      match afterTraffic with
      | none => none
      | some stat =>
        some { stat with cpu := env.cpuPercent,
                         network_rx := env.netSpeed.netrx,
                         network_tx := env.netSpeed.nettx }

/-!
## Synthetic `/proc/net/dev` lines

Builders for the synthetic device-counter lines the traffic theorems
quantify over: an interface name, a colon, a space, and eleven numeric
fields separated by single spaces.
-/

/-- Space-prefixed join of the groups after the first one. -/
def joinSpTail : List (List Char) → List Char
  | [] => []
  | g :: gs => ' ' :: (g ++ joinSpTail gs)

/-- Join digit groups with single spaces. -/
def joinSp : List (List Char) → List Char
  | [] => []
  | g :: gs => g ++ joinSpTail gs

/-- A synthetic interface line `name: g₁ g₂ … gₙ`. -/
def mkIfLine (name : List Char) (gs : List (List Char)) : List Char :=
  name ++ ':' :: ' ' :: joinSp gs

/-!
## Helper lemmas
-/

theorem splitOnChar_ne_nil (sep : Char) (cs : List Char) :
    splitOnChar sep cs ≠ [] := by
  cases cs with
  | nil => simp [splitOnChar]
  | cons c cs =>
    simp only [splitOnChar]
    split
    · simp
    · split <;> simp

theorem splitOnChar_head_of_append (sep : Char) (pre post : List Char)
    (hpre : sep ∉ pre) :
    (splitOnChar sep (pre ++ sep :: post)).head? = some pre := by
  induction pre with
  | nil => simp [splitOnChar]
  | cons c cs ih =>
    have hc : c ≠ sep := fun h => hpre (h ▸ List.mem_cons_self c cs)
    have hcs : sep ∉ cs := fun h => hpre (List.mem_cons_of_mem c h)
    have := ih hcs
    simp only [List.cons_append, splitOnChar, if_neg hc]
    cases h : splitOnChar sep (cs ++ sep :: post) with
    | nil => rw [h] at this; simp at this
    | cons g gs => rw [h] at this; simp at this; simp [this]

theorem parseU64_digits (ds : List Char) (hne : ds ≠ [])
    (hdig : ∀ c ∈ ds, c.isDigit) (hlt : digitsToNat ds < U64M) :
    parseU64 ds = some (digitsToNat ds) := by
  have hplus : ds.head? ≠ some '+' := by
    cases ds with
    | nil => simp
    | cons c cs =>
      simp only [List.head?_cons, ne_eq, Option.some.injEq]
      intro h
      have := hdig c (List.mem_cons_self c cs)
      rw [h] at this
      exact absurd this (by decide)
  unfold parseU64
  simp only [if_neg hplus]
  rw [if_neg (by simpa using hne), if_pos (by simpa using hdig), if_pos hlt]

theorem takeWhile_append_all (p : Char → Bool) (xs : List Char) (y : Char)
    (ys : List Char) (hx : ∀ x ∈ xs, p x) (hy : p y = false) :
    (xs ++ y :: ys).takeWhile p = xs := by
  induction xs with
  | nil => simp [List.takeWhile, hy]
  | cons a as ih =>
    have ha : p a := hx a (List.mem_cons_self a as)
    simp only [List.cons_append, List.takeWhile_cons, ha, if_true]
    rw [ih (fun x hxx => hx x (List.mem_cons_of_mem a hxx))]

theorem dropWhile_append_all (p : Char → Bool) (xs : List Char) (y : Char)
    (ys : List Char) (hx : ∀ x ∈ xs, p x) (hy : p y = false) :
    (xs ++ y :: ys).dropWhile p = y :: ys := by
  induction xs with
  | nil => simp [List.dropWhile, hy]
  | cons a as ih =>
    have ha : p a := hx a (List.mem_cons_self a as)
    simp only [List.cons_append, List.dropWhile_cons, ha, if_true]
    exact ih (fun x hxx => hx x (List.mem_cons_of_mem a hxx))

theorem takeWhile_all (p : Char → Bool) (xs : List Char)
    (hx : ∀ x ∈ xs, p x) : xs.takeWhile p = xs := by
  induction xs with
  | nil => rfl
  | cons a as ih =>
    have ha : p a := hx a (List.mem_cons_self a as)
    simp only [List.takeWhile_cons, ha, if_true]
    rw [ih (fun x hxx => hx x (List.mem_cons_of_mem a hxx))]

theorem dropWhile_all (p : Char → Bool) (xs : List Char)
    (hx : ∀ x ∈ xs, p x) : xs.dropWhile p = [] := by
  induction xs with
  | nil => rfl
  | cons a as ih =>
    have ha : p a := hx a (List.mem_cons_self a as)
    simp only [List.dropWhile_cons, ha, if_true]
    exact ih (fun x hxx => hx x (List.mem_cons_of_mem a hxx))

/-!
## C7 — `get_uptime`
-/

/-- C7: for every input, `get_uptime` returns the integer portion before
the first decimal point (first conjunct, for an input with a `.` whose
prefix is a valid `u64` numeral), and returns 0 on any parse failure of
that portion (second conjunct), never failing the pass (it is total).
The spec's example input `"12345.67 8900.11"` instantiates the first
conjunct (see the witness). -/
theorem get_uptime_spec (pre post fail : List Char)
    (hdot : '.' ∉ pre) (hne : pre ≠ []) (hdig : ∀ c ∈ pre, c.isDigit)
    (hlt : digitsToNat pre < U64M)
    (hfail : parseU64 ((splitOnChar '.' fail).headD []) = none) :
    get_uptime (pre ++ '.' :: post) = digitsToNat pre ∧ get_uptime fail = 0 := by
  constructor
  · unfold get_uptime
    rw [splitOnChar_head_of_append '.' pre post hdot]
    simp only
    rw [parseU64_digits pre hne hdig hlt]
    rfl
  · unfold get_uptime
    cases h : (splitOnChar '.' fail).head? with
    | none => rfl
    | some s =>
      have : (splitOnChar '.' fail).headD [] = s := by
        rw [List.headD_eq_head?_getD, h]; rfl
      rw [this] at hfail
      simp [hfail]

/-- Witness for C7 at the spec's example `"12345.67 8900.11"` (and the
unparsable input `"abc"`). -/
theorem get_uptime_spec_witness :
    get_uptime ("12345".data ++ '.' :: "67 8900.11".data) = digitsToNat "12345".data ∧
      get_uptime "abc".data = 0 :=
  get_uptime_spec "12345".data "67 8900.11".data "abc".data
    (by decide) (by decide) (by decide) (by decide) (by decide)

theorem U64M_pos : 0 < U64M := by unfold U64M; positivity

theorem wsub64_of_le (a b : Nat) (hba : b ≤ a) (ha : a < U64M) :
    wsub64 a b = a - b := by
  unfold wsub64
  rw [Nat.mod_eq_of_lt (lt_of_le_of_lt hba ha)]
  have h1 : a + U64M - b = U64M + (a - b) := by omega
  rw [h1, Nat.add_mod_left, Nat.mod_eq_of_lt (by omega)]

/-!
## C3 — `get_memory`
-/

theorem get_memory_eq_compute (lines : List (List Char))
    (dict : List (List Char × Nat)) (hscan : memScan lines = some dict) :
    get_memory lines = memCompute dict := by
  unfold get_memory
  rw [hscan]

theorem get_memory_none_of_missing (lines : List (List Char))
    (dict : List (List Char × Nat))
    (hscan : memScan lines = some dict)
    (hmiss : dict.lookup "MemTotal".data = none ∨
      dict.lookup "SwapTotal".data = none ∨
      dict.lookup "SwapFree".data = none ∨
      dict.lookup "MemFree".data = none ∨
      dict.lookup "Buffers".data = none ∨
      dict.lookup "Cached".data = none ∨
      dict.lookup "SReclaimable".data = none) :
    get_memory lines = none := by
  rw [get_memory_eq_compute lines dict hscan]
  unfold memCompute
  rcases hmiss with h | h | h | h | h | h | h
  · rw [h]
  · cases h1 : dict.lookup "MemTotal".data
    · rfl
    · rw [h]
  · cases h1 : dict.lookup "MemTotal".data
    · rfl
    · cases h2 : dict.lookup "SwapTotal".data
      · rfl
      · rw [h]
  · cases h1 : dict.lookup "MemTotal".data
    · rfl
    · cases h2 : dict.lookup "SwapTotal".data
      · rfl
      · cases h3 : dict.lookup "SwapFree".data
        · rfl
        · rw [h]
  · cases h1 : dict.lookup "MemTotal".data
    · rfl
    · cases h2 : dict.lookup "SwapTotal".data
      · rfl
      · cases h3 : dict.lookup "SwapFree".data
        · rfl
        · cases h4 : dict.lookup "MemFree".data
          · rfl
          · rw [h]
  · cases h1 : dict.lookup "MemTotal".data
    · rfl
    · cases h2 : dict.lookup "SwapTotal".data
      · rfl
      · cases h3 : dict.lookup "SwapFree".data
        · rfl
        · cases h4 : dict.lookup "MemFree".data
          · rfl
          · cases h5 : dict.lookup "Buffers".data
            · rfl
            · rw [h]
  · cases h1 : dict.lookup "MemTotal".data
    · rfl
    · cases h2 : dict.lookup "SwapTotal".data
      · rfl
      · cases h3 : dict.lookup "SwapFree".data
        · rfl
        · cases h4 : dict.lookup "MemFree".data
          · rfl
          · cases h5 : dict.lookup "Buffers".data
            · rfl
            · cases h6 : dict.lookup "Cached".data
              · rfl
              · rw [h]

/-- C3 (amended): for every memory table whose matched lines all carry
`u64`-parsable values and which contains the seven required keys
(hypotheses `hscan`/`hmt`…`hsr`), `get_memory` completes without panic
and returns `used = total - free - buffers - cached - reclaimable`
(natural subtraction under the no-underflow hypothesis `hsum`); and for
every table that parses but lacks a required key (`lines'`), it fails
fatally (`none`, modelling the `HashMap` index panic). -/
theorem get_memory_spec (lines : List (List Char)) (dict : List (List Char × Nat))
    (mt st sf mf bu ca sr : Nat)
    (lines' : List (List Char)) (dict' : List (List Char × Nat))
    (hscan : memScan lines = some dict)
    (hmt : dict.lookup "MemTotal".data = some mt)
    (hst : dict.lookup "SwapTotal".data = some st)
    (hsf : dict.lookup "SwapFree".data = some sf)
    (hmf : dict.lookup "MemFree".data = some mf)
    (hbu : dict.lookup "Buffers".data = some bu)
    (hca : dict.lookup "Cached".data = some ca)
    (hsr : dict.lookup "SReclaimable".data = some sr)
    (hbound : mt < U64M)
    (hsum : mf + bu + ca + sr ≤ mt)
    (hscan' : memScan lines' = some dict')
    (hmiss : dict'.lookup "MemTotal".data = none ∨
      dict'.lookup "SwapTotal".data = none ∨
      dict'.lookup "SwapFree".data = none ∨
      dict'.lookup "MemFree".data = none ∨
      dict'.lookup "Buffers".data = none ∨
      dict'.lookup "Cached".data = none ∨
      dict'.lookup "SReclaimable".data = none) :
    get_memory lines = some (mt, mt - (mf + bu + ca + sr), st, sf) ∧
      get_memory lines' = none := by
  constructor
  · have h1 : wsub64 mt mf = mt - mf := wsub64_of_le mt mf (by omega) hbound
    have h2 : wsub64 (mt - mf) bu = mt - mf - bu :=
      wsub64_of_le _ _ (by omega) (by omega)
    have h3 : wsub64 (mt - mf - bu) ca = mt - mf - bu - ca :=
      wsub64_of_le _ _ (by omega) (by omega)
    have h4 : wsub64 (mt - mf - bu - ca) sr = mt - mf - bu - ca - sr :=
      wsub64_of_le _ _ (by omega) (by omega)
    have h5 : mt - mf - bu - ca - sr = mt - (mf + bu + ca + sr) := by omega
    rw [get_memory_eq_compute lines dict hscan]
    unfold memCompute
    rw [hmt, hst, hsf, hmf, hbu, hca, hsr]
    simp only [h1, h2, h3, h4, h5]
  · exact get_memory_none_of_missing lines' dict' hscan' hmiss

/-- Witness for C3 at the spec's example table (yielding
`(1000, 600, 500, 500)`), with the same table minus its `MemTotal` line
as the fatally-failing input. -/
theorem get_memory_spec_witness :
    get_memory ["MemTotal: 1000 kB".data, "MemFree: 200 kB".data,
        "Buffers: 50 kB".data, "Cached: 50 kB".data, "SReclaimable: 100 kB".data,
        "SwapTotal: 500 kB".data, "SwapFree: 500 kB".data] =
      some (1000, 1000 - (200 + 50 + 50 + 100), 500, 500) ∧
    get_memory ["MemFree: 200 kB".data, "Buffers: 50 kB".data,
        "Cached: 50 kB".data, "SReclaimable: 100 kB".data,
        "SwapTotal: 500 kB".data, "SwapFree: 500 kB".data] = none :=
  get_memory_spec _
    [("SwapFree".data, 500), ("SwapTotal".data, 500), ("SReclaimable".data, 100),
     ("Cached".data, 50), ("Buffers".data, 50), ("MemFree".data, 200),
     ("MemTotal".data, 1000)]
    1000 500 500 200 50 50 100 _
    [("SwapFree".data, 500), ("SwapTotal".data, 500), ("SReclaimable".data, 100),
     ("Cached".data, 50), ("Buffers".data, 50), ("MemFree".data, 200)]
    (by decide) (by decide) (by decide) (by decide) (by decide) (by decide)
    (by decide) (by decide) (by decide) (by decide) (by decide)
    (Or.inl (by decide))

/-- Counterexample for C3 as stated: a memory table that contains all
seven required keys (each conjunct exhibits the line matching that key)
but also contains the line `"Foo: kB"`, whose empty value capture makes
`caps["value"].parse::<u64>().unwrap()` panic — so `get_memory` does
not return and the "never panics when the required keys are present"
part of the claim is false. -/
theorem get_memory_counterexample :
    (memLineMatch "MemTotal: 1000 kB".data).map Prod.fst = some "MemTotal".data ∧
    (memLineMatch "MemFree: 200 kB".data).map Prod.fst = some "MemFree".data ∧
    (memLineMatch "Buffers: 50 kB".data).map Prod.fst = some "Buffers".data ∧
    (memLineMatch "Cached: 50 kB".data).map Prod.fst = some "Cached".data ∧
    (memLineMatch "SReclaimable: 100 kB".data).map Prod.fst = some "SReclaimable".data ∧
    (memLineMatch "SwapTotal: 500 kB".data).map Prod.fst = some "SwapTotal".data ∧
    (memLineMatch "SwapFree: 500 kB".data).map Prod.fst = some "SwapFree".data ∧
    get_memory ["MemTotal: 1000 kB".data, "MemFree: 200 kB".data,
        "Buffers: 50 kB".data, "Cached: 50 kB".data, "SReclaimable: 100 kB".data,
        "SwapTotal: 500 kB".data, "SwapFree: 500 kB".data, "Foo: kB".data] =
      none := by
  refine ⟨by decide, by decide, by decide, by decide, by decide, by decide,
    by decide, by decide⟩

/-!
## C1 — CPU busy percent
-/

theorem clampTot_pos (n : Nat) : 0 < clampTot n := by
  unfold clampTot; split <;> omega

theorem u64SumWrap_eq (a b c d : Nat) (h : a + b + c + d < U64M) :
    u64SumWrap [a, b, c, d] = a + b + c + d := by
  unfold u64SumWrap
  simp only [List.foldl_cons, List.foldl_nil]
  rw [Nat.zero_add]
  rw [Nat.mod_eq_of_lt (show a < U64M by omega)]
  rw [Nat.mod_eq_of_lt (show a + b < U64M by omega)]
  rw [Nat.mod_eq_of_lt (show a + b + c < U64M by omega)]
  rw [Nat.mod_eq_of_lt h]

theorem cpu_tick_eval (a b c d a' b' c' d' : Nat)
    (hsum : a' + b' + c' + d' < U64M)
    (ha : a ≤ a') (hb : b ≤ b') (hc : c ≤ c') (hd : d ≤ d') :
    cpu_percent_tick [a, b, c, d] [a', b', c', d'] =
      some (100 - 100 * ((d' - d : Nat) : ℚ) /
        ((clampTot ((a' + b' + c' + d') - (a + b + c + d)) : Nat) : ℚ)) := by
  simp only [cpu_percent_tick, List.getElem?_cons_succ, List.getElem?_cons_zero]
  rw [u64SumWrap_eq a b c d (by omega), u64SumWrap_eq a' b' c' d' hsum]
  rw [wsub64_of_le _ _ (by omega) hsum]
  rw [wsub64_of_le d' d hd (by omega)]

/-- C1: for four-field CPU counter vectors with `current` componentwise
at least `previous` (and total fitting in `u64`), one sampler tick
publishes `round(100 - 100 * idle_delta / total_delta)` with
`total_delta` clamped to 1 when the raw delta is zero (first conjunct);
the published percent is 0 when the idle delta equals the (clamped)
total delta (second conjunct) and 100 when the idle delta is 0 (third
conjunct). -/
theorem cpu_percent_spec (a b c d a' b' c' d' : Nat)
    (hsum : a' + b' + c' + d' < U64M)
    (ha : a ≤ a') (hb : b ≤ b') (hc : c ≤ c') (hd : d ≤ d') :
    cpu_percent_publish [a, b, c, d] [a', b', c', d'] =
      some (rustRound (100 - 100 * ((d' - d : Nat) : ℚ) /
        ((clampTot ((a' + b' + c' + d') - (a + b + c + d)) : Nat) : ℚ))) ∧
    (d' - d = clampTot ((a' + b' + c' + d') - (a + b + c + d)) →
      cpu_percent_publish [a, b, c, d] [a', b', c', d'] = some 0) ∧
    (d' - d = 0 →
      cpu_percent_publish [a, b, c, d] [a', b', c', d'] = some 100) := by
  have hev := cpu_tick_eval a b c d a' b' c' d' hsum ha hb hc hd
  have hpub : cpu_percent_publish [a, b, c, d] [a', b', c', d'] =
      some (rustRound (100 - 100 * ((d' - d : Nat) : ℚ) /
        ((clampTot ((a' + b' + c' + d') - (a + b + c + d)) : Nat) : ℚ))) := by
    unfold cpu_percent_publish
    rw [hev]
    rfl
  refine ⟨hpub, ?_, ?_⟩
  · intro hidle
    rw [hpub, hidle]
    have hst : ((clampTot ((a' + b' + c' + d') - (a + b + c + d)) : Nat) : ℚ) ≠ 0 := by
      exact_mod_cast (clampTot_pos _).ne'
    have hval : (100 : ℚ) -
        100 * ((clampTot ((a' + b' + c' + d') - (a + b + c + d)) : Nat) : ℚ) /
          ((clampTot ((a' + b' + c' + d') - (a + b + c + d)) : Nat) : ℚ) = 0 := by
      field_simp
    rw [hval]
    norm_num [rustRound]
  · intro hidle
    rw [hpub, hidle]
    have hval : (100 : ℚ) - 100 * ((0 : Nat) : ℚ) /
        ((clampTot ((a' + b' + c' + d') - (a + b + c + d)) : Nat) : ℚ) = 100 := by
      norm_num
    rw [hval]
    norm_num [rustRound, round_eq]

/-- Witness for C1 at `previous = [1,1,1,1]`, `current = [3,2,2,2]`
(total delta 5, idle delta 1, busy percent 80). -/
theorem cpu_percent_spec_witness :
    cpu_percent_publish [1, 1, 1, 1] [3, 2, 2, 2] =
      some (rustRound (100 - 100 * ((2 - 1 : Nat) : ℚ) /
        ((clampTot ((3 + 2 + 2 + 2) - (1 + 1 + 1 + 1)) : Nat) : ℚ))) ∧
    (2 - 1 = clampTot ((3 + 2 + 2 + 2) - (1 + 1 + 1 + 1)) →
      cpu_percent_publish [1, 1, 1, 1] [3, 2, 2, 2] = some 0) ∧
    (2 - 1 = 0 →
      cpu_percent_publish [1, 1, 1, 1] [3, 2, 2, 2] = some 100) :=
  cpu_percent_spec 1 1 1 1 3 2 2 2 (by norm_num [U64M]) (by norm_num)
    (by norm_num) (by norm_num) (by norm_num)

/-!
## C2 — network rate tick with nonpositive elapsed time
-/

theorem rate_degenerate (q : ℚ) (a b : Nat) (hd : q ≤ 0) :
    f64AsU64 (f64Div ((wsub64 a b : Nat) : ℚ) q) =
      if q = 0 ∧ wsub64 a b ≠ 0 then U64M - 1 else 0 := by
  unfold f64Div f64AsU64
  by_cases h0 : q = 0
  · by_cases hw : wsub64 a b = 0
    · simp [h0, hw]
    · have hpos : (0 : ℚ) < ((wsub64 a b : Nat) : ℚ) := by
        exact_mod_cast Nat.pos_of_ne_zero hw
      simp [h0, hw, hpos, hpos.ne']
  · have hneg : q < 0 := lt_of_le_of_ne hd h0
    rw [if_neg h0, if_neg (fun hand => h0 hand.1)]
    by_cases hw : wsub64 a b = 0
    · simp [hw]
    · have hpos : (0 : ℚ) < ((wsub64 a b : Nat) : ℚ) := by
        exact_mod_cast Nat.pos_of_ne_zero hw
      have hdiv : ((wsub64 a b : Nat) : ℚ) / q < 0 := div_neg_of_pos_of_neg hpos hneg
      simp [hdiv]

/-- C2: on a tick whose computed elapsed time `now - t.clock` is zero or
negative, the network-rate update completes without any division error:
the clock and cumulative counters are still published, and the two
rates are merely degenerate — `u64::MAX` from the `+∞` produced by a
nonzero delta over zero elapsed time, and 0 in every other case (NaN or
a nonpositive finite quotient, both cast to 0). -/
theorem netSpeedTick_nonpositive_elapsed (t : NetSpeed) (now : ℚ)
    (rx tx : Nat) (h : now ≤ t.clock) :
    (netSpeedTick t now rx tx).clock = now ∧
    (netSpeedTick t now rx tx).avgrx = rx ∧
    (netSpeedTick t now rx tx).avgtx = tx ∧
    (netSpeedTick t now rx tx).netrx =
      (if now = t.clock ∧ wsub64 rx t.avgrx ≠ 0 then U64M - 1 else 0) ∧
    (netSpeedTick t now rx tx).nettx =
      (if now = t.clock ∧ wsub64 tx t.avgtx ≠ 0 then U64M - 1 else 0) := by
  have h1 := rate_degenerate (now - t.clock) rx t.avgrx (by linarith)
  have h2 := rate_degenerate (now - t.clock) tx t.avgtx (by linarith)
  simp only [sub_eq_zero] at h1 h2
  exact ⟨rfl, rfl, rfl, h1, h2⟩

/-- Witness for C2: a tick at `now = 3` against a state clock of 5
(elapsed −2), with a zero receive delta and a nonzero transmit delta;
both published rates are 0 and the update completes. -/
theorem netSpeedTick_nonpositive_elapsed_witness :
    (netSpeedTick ⟨0, 5, 0, 0, 7, 9⟩ 3 7 12).clock = 3 ∧
    (netSpeedTick ⟨0, 5, 0, 0, 7, 9⟩ 3 7 12).avgrx = 7 ∧
    (netSpeedTick ⟨0, 5, 0, 0, 7, 9⟩ 3 7 12).avgtx = 12 ∧
    (netSpeedTick ⟨0, 5, 0, 0, 7, 9⟩ 3 7 12).netrx =
      (if (3 : ℚ) = (NetSpeed.mk 0 5 0 0 7 9).clock ∧ wsub64 7 (NetSpeed.mk 0 5 0 0 7 9).avgrx ≠ 0
        then U64M - 1 else 0) ∧
    (netSpeedTick ⟨0, 5, 0, 0, 7, 9⟩ 3 7 12).nettx =
      (if (3 : ℚ) = (NetSpeed.mk 0 5 0 0 7 9).clock ∧ wsub64 12 (NetSpeed.mk 0 5 0 0 7 9).avgtx ≠ 0
        then U64M - 1 else 0) :=
  netSpeedTick_nonpositive_elapsed ⟨0, 5, 0, 0, 7, 9⟩ 3 7 12 (by norm_num)

/-!
## C4 — `get_hdd`
-/

/-- C4 (amended): `get_hdd` parses the last line of the (trimmed) tool
output as whitespace-separated fields, returning the third as `totalMB`
and the fourth as `usedMB` when both parse as `u64` (first conjunct);
but a parse failure does not leave the values at 0 — an output whose
last line lacks a third field makes the call panic (second conjunct).
Only a non-UTF-8 output (outside this text model) takes the soft path
that leaves both values at 0. -/
theorem get_hdd_spec (out bad t2 t3 : List Char) (a b : Nat)
    (h2 : (splitWS ((splitOnChar '\n' (rustTrim out)).getLastD []))[2]? = some t2)
    (h3 : (splitWS ((splitOnChar '\n' (rustTrim out)).getLastD []))[3]? = some t3)
    (hp2 : parseU64 t2 = some a)
    (hp3 : parseU64 t3 = some b)
    (hbad : (splitWS ((splitOnChar '\n' (rustTrim bad)).getLastD []))[2]? = none) :
    get_hdd out = some (a, b) ∧ get_hdd bad = none := by
  constructor
  · simp only [get_hdd, h2, h3, hp2, hp3]
    rfl
  · simp only [get_hdd, hbad]

/-- Witness for C4 on a df-shaped output (totals row `40000`/`12345`)
and the degenerate output `"abc"`. -/
theorem get_hdd_spec_witness :
    get_hdd ("Filesystem Type 1M-blocks Used Available Use% Mounted on\ntotal - 40000 12345 25000 33% -").data =
      some (40000, 12345) ∧
    get_hdd "abc".data = none :=
  get_hdd_spec _ _ "40000".data "12345".data 40000 12345
    (by decide) (by decide) (by decide) (by decide) (by decide)

/-- Counterexample for C4 as stated: on the output `"abc"` the last
line has no third whitespace-separated field, so `vec[2]` panics —
`get_hdd` does not complete, and in particular it does not leave both
values at 0.  The claim that "any parse failure leaves both values at 0
rather than propagating an error (the call never fails)" is false. -/
theorem get_hdd_counterexample :
    get_hdd "abc".data = none ∧ get_hdd "abc".data ≠ some (0, 0) := by
  refine ⟨by decide, by decide⟩

/-!
## C5 / C6 — `get_sys_traffic` and the interface filter
-/

theorem not_ws_of_isDigit (c : Char) (h : c.isDigit = true) :
    c.isWhitespace = false := by
  cases hw : c.isWhitespace
  · rfl
  · exfalso
    simp only [Char.isWhitespace, Bool.or_eq_true, decide_eq_true_eq] at hw
    rcases hw with ((h1 | h1) | h1) | h1 <;>
      (subst h1; exact absurd h (by decide))

theorem grabGroups_join (gs : List (List Char)) :
    ∀ g : List Char, g ≠ [] → (∀ c ∈ g, c.isDigit) →
    (∀ x ∈ gs, x ≠ [] ∧ ∀ c ∈ x, c.isDigit) →
    grabGroups (gs.length + 1) (g ++ joinSpTail gs) = some (g :: gs) := by
  induction gs with
  | nil =>
    intro g hne hdig _
    cases g with
    | nil => exact absurd rfl hne
    | cons c cg =>
      show grabGroups (0 + 1) ((c :: cg) ++ joinSpTail []) = some [c :: cg]
      rw [grabGroups.eq_2]
      simp only [joinSpTail, List.append_nil]
      rw [takeWhile_all _ (c :: cg) hdig]
      rfl
  | cons g2 t ih =>
    intro g hne hdig hgs
    obtain ⟨hg2ne, hg2dig⟩ := hgs g2 (List.mem_cons_self _ _)
    have hgs' : ∀ x ∈ t, x ≠ [] ∧ ∀ c ∈ x, c.isDigit :=
      fun x hx => hgs x (List.mem_cons_of_mem _ hx)
    simp only [joinSpTail, List.length_cons]
    show grabGroups (t.length + 1 + 1) (g ++ ' ' :: (g2 ++ joinSpTail t)) =
      some (g :: g2 :: t)
    rw [grabGroups.eq_2]
    rw [takeWhile_append_all _ g ' ' _ hdig (by decide)]
    rw [dropWhile_append_all _ g ' ' _ hdig (by decide)]
    cases g with
    | nil => exact absurd rfl hne
    | cons c cg =>
      show (grabGroups (t.length + 1)
          ((g2 ++ joinSpTail t).dropWhile Char.isWhitespace)).map
            (fun x => (c :: cg) :: x) = some ((c :: cg) :: g2 :: t)
      cases g2 with
      | nil => exact absurd rfl hg2ne
      | cons c2 cg2 =>
        have hc2 : c2.isDigit := hg2dig c2 (List.mem_cons_self _ _)
        rw [List.cons_append,
          List.dropWhile_cons_of_neg
            (by rw [not_ws_of_isDigit c2 hc2]; exact Bool.false_ne_true),
          ← List.cons_append]
        rw [ih (c2 :: cg2) hg2ne hg2dig hgs']
        rfl

theorem trafficTail_join (g : List Char) (gs : List (List Char))
    (hne : g ≠ []) (hdig : ∀ c ∈ g, c.isDigit)
    (hgs : ∀ x ∈ gs, x ≠ [] ∧ ∀ c ∈ x, c.isDigit)
    (hlen : gs.length = 10) :
    trafficTail (' ' :: joinSp (g :: gs)) = some (g :: gs) := by
  unfold trafficTail
  rw [List.dropWhile_cons_of_pos (by decide)]
  simp only [joinSp]
  cases g with
  | nil => exact absurd rfl hne
  | cons c cg =>
    have hc : c.isDigit := hdig c (List.mem_cons_self _ _)
    rw [List.cons_append,
      List.dropWhile_cons_of_neg
        (by rw [not_ws_of_isDigit c hc]; exact Bool.false_ne_true),
      ← List.cons_append]
    have h11 : (11 : Nat) = gs.length + 1 := by omega
    rw [h11]
    exact grabGroups_join gs (c :: cg) hne hdig hgs

theorem trafficNameAt_mkIfLine (name : List Char) (gs : List (List Char))
    (htail : trafficTail (' ' :: joinSp gs) = some gs) :
    trafficNameAt (mkIfLine name gs) name.length = some (name, gs) := by
  unfold trafficNameAt mkIfLine
  rw [List.getElem?_append_right (Nat.le_refl _)]
  simp only [Nat.sub_self, List.getElem?_cons_zero, if_pos rfl]
  have hsplit : name ++ ':' :: ' ' :: joinSp gs =
      (name ++ [':']) ++ (' ' :: joinSp gs) := by simp
  rw [hsplit, List.drop_left' (by simp), htail]
  have htake : ((name ++ [':']) ++ ' ' :: joinSp gs).take name.length = name := by
    rw [List.append_assoc]
    exact List.take_left name _
  rw [htake]
  rfl

theorem trafficTryEnds_mkIfLine (name : List Char) (gs : List (List Char))
    (hne : name ≠ [])
    (htail : trafficTail (' ' :: joinSp gs) = some gs) :
    trafficTryEnds (mkIfLine name gs) name.length = some (name, gs) := by
  obtain ⟨k, hk⟩ : ∃ k, name.length = k + 1 := by
    cases name with
    | nil => exact absurd rfl hne
    | cons c nm => exact ⟨nm.length, by simp⟩
  rw [hk]
  simp only [trafficTryEnds]
  rw [← hk, trafficNameAt_mkIfLine name gs htail]

theorem trafficSearch_mkIfLine (name : List Char) (gs : List (List Char))
    (hne : name ≠ [])
    (hns : ∀ c ∈ name, c.isWhitespace = false ∧ c ≠ ':')
    (htail : trafficTail (' ' :: joinSp gs) = some gs) :
    trafficSearch (mkIfLine name gs) = some (name, gs) := by
  cases hname : name with
  | nil => exact absurd hname hne
  | cons c nm =>
    subst hname
    show trafficSearch (c :: (nm ++ ':' :: ' ' :: joinSp gs)) = _
    simp only [trafficSearch]
    have hrun : ((c :: nm) ++ ':' :: ' ' :: joinSp gs).takeWhile
        (fun x => !x.isWhitespace) = (c :: nm) ++ [':'] := by
      have : (c :: nm) ++ ':' :: ' ' :: joinSp gs =
          ((c :: nm) ++ [':']) ++ ' ' :: joinSp gs := by simp
      rw [this]
      refine takeWhile_append_all _ _ ' ' _ ?_ (by decide)
      intro x hx
      rcases List.mem_append.mp hx with hx | hx
      · simp [(hns x hx).1]
      · simp at hx
        subst hx
        decide
    rw [List.cons_append] at hrun
    show (match
        (if ((c :: (nm ++ ':' :: ' ' :: joinSp gs)).takeWhile fun x => !x.isWhitespace).isEmpty
          then none
          else trafficTryEnds (c :: (nm ++ ':' :: ' ' :: joinSp gs))
            (((c :: (nm ++ ':' :: ' ' :: joinSp gs)).takeWhile fun x => !x.isWhitespace).length - 1)) with
      | some r => some r
      | none => trafficSearch (nm ++ ':' :: ' ' :: joinSp gs)) = some (c :: nm, gs)
    rw [hrun]
    have hni : ¬(((c :: nm) ++ [':']).isEmpty = true) := Bool.false_ne_true
    rw [if_neg hni]
    have hl : ((c :: nm) ++ [':']).length - 1 = (c :: nm).length := by simp
    rw [hl]
    have hfold : c :: (nm ++ ':' :: ' ' :: joinSp gs) = mkIfLine (c :: nm) gs := by
      simp [mkIfLine]
    rw [hfold, trafficTryEnds_mkIfLine (c :: nm) gs hne htail]

theorem trafficStep_mkIfLine (acc : Nat × Nat) (name : List Char)
    (gs : List (List Char)) (vrx vtx : Nat)
    (hsearch : trafficSearch (mkIfLine name gs) = some (name, gs))
    (hfilter : ifaceIgnored name = false)
    (hrx : parseU64 (gs.headD []) = some vrx)
    (htx : parseU64 (gs[8]?.getD []) = some vtx) :
    trafficStep acc (mkIfLine name gs) =
      some ((acc.1 + vrx) % U64M, (acc.2 + vtx) % U64M) := by
  unfold trafficStep
  rw [hsearch]
  have hni : ¬(ifaceIgnored name = true) := by simp [hfilter]
  show (if ifaceIgnored name = true then some acc
      else
        match parseU64 (gs.headD []) with
        | none => none
        | some rx =>
          match parseU64 (gs[8]?.getD []) with
          | none => none
          | some tx => some ((acc.1 + rx) % U64M, (acc.2 + tx) % U64M)) =
    some ((acc.1 + vrx) % U64M, (acc.2 + vtx) % U64M)
  rw [if_neg hni, hrx, htx]

theorem trafficStep_ignored (acc : Nat × Nat) (l name : List Char)
    (gs : List (List Char))
    (hsearch : trafficSearch l = some (name, gs))
    (hfilter : ifaceIgnored name = true) :
    trafficStep acc l = some acc := by
  unfold trafficStep
  rw [hsearch]
  exact if_pos hfilter

theorem foldlM_traffic_some (acc acc2 : Nat × Nat) (l : List Char)
    (ls : List (List Char)) (h : trafficStep acc l = some acc2) :
    List.foldlM trafficStep acc (l :: ls) = List.foldlM trafficStep acc2 ls := by
  rw [List.foldlM_cons, h]
  rfl

/-- C5: a device-counter line consisting of an interface name (here an
arbitrary non-filtered name without `:` or whitespace) followed by
exactly eleven numeric fields is parsed with the first numeric field as
receive bytes and the ninth numeric field as transmit bytes, so a
one-line synthetic table yields totals exactly equal to those two
values. -/
theorem get_sys_traffic_single_iface
    (name g1 g2 g3 g4 g5 g6 g7 g8 g9 g10 g11 : List Char)
    (hne : name ≠ [])
    (hns : ∀ c ∈ name, c.isWhitespace = false ∧ c ≠ ':')
    (hfilter : ifaceIgnored name = false)
    (hgs : ∀ x ∈ [g1, g2, g3, g4, g5, g6, g7, g8, g9, g10, g11],
      x ≠ [] ∧ ∀ c ∈ x, c.isDigit)
    (hrx : digitsToNat g1 < U64M) (htx : digitsToNat g9 < U64M) :
    get_sys_traffic
        [mkIfLine name [g1, g2, g3, g4, g5, g6, g7, g8, g9, g10, g11]] =
      some (digitsToNat g1, digitsToNat g9) := by
  have h1 := hgs g1 (by simp)
  have htail := trafficTail_join g1 [g2, g3, g4, g5, g6, g7, g8, g9, g10, g11]
    h1.1 h1.2 (fun x hx => hgs x (List.mem_cons_of_mem _ hx)) rfl
  have hsearch := trafficSearch_mkIfLine name
    [g1, g2, g3, g4, g5, g6, g7, g8, g9, g10, g11] hne hns htail
  have h9 := hgs g9 (by simp)
  have hprx : parseU64 ([g1, g2, g3, g4, g5, g6, g7, g8, g9, g10, g11].headD []) =
      some (digitsToNat g1) := parseU64_digits g1 h1.1 h1.2 hrx
  have hptx : parseU64
      (([g1, g2, g3, g4, g5, g6, g7, g8, g9, g10, g11][8]?).getD []) =
      some (digitsToNat g9) := parseU64_digits g9 h9.1 h9.2 htx
  have hstep := trafficStep_mkIfLine (0, 0) name
    [g1, g2, g3, g4, g5, g6, g7, g8, g9, g10, g11]
    (digitsToNat g1) (digitsToNat g9) hsearch hfilter hprx hptx
  unfold get_sys_traffic
  rw [foldlM_traffic_some _ _ _ _ hstep]
  show some ((0 + digitsToNat g1) % U64M, (0 + digitsToNat g9) % U64M) = _
  rw [Nat.zero_add, Nat.zero_add, Nat.mod_eq_of_lt hrx, Nat.mod_eq_of_lt htx]

/-- Witness for C5: interface `eth0` with receive bytes 12345 and
transmit bytes 67890. -/
theorem get_sys_traffic_single_iface_witness :
    get_sys_traffic
        [mkIfLine "eth0".data
          ["12345".data, "2".data, "3".data, "4".data, "5".data, "6".data,
           "7".data, "8".data, "67890".data, "10".data, "11".data]] =
      some (digitsToNat "12345".data, digitsToNat "67890".data) :=
  get_sys_traffic_single_iface "eth0".data "12345".data "2".data "3".data
    "4".data "5".data "6".data "7".data "8".data "67890".data "10".data
    "11".data (by decide) (by decide) (by decide) (by decide) (by decide)
    (by decide)

/-- C6: in a table whose interface names are exactly
`{lo, eth0, docker0, vnet1}`, only `eth0` contributes to the totals:
the other three names contain a filter substring (`lo`, `docker`,
`vnet`) and their lines are excluded, whatever their counters (the
excluded lines here carry concrete nonzero counters, the `eth0` line
arbitrary ones). -/
theorem get_sys_traffic_filter (g1 g2 g3 g4 g5 g6 g7 g8 g9 g10 g11 : List Char)
    (hgs : ∀ x ∈ [g1, g2, g3, g4, g5, g6, g7, g8, g9, g10, g11],
      x ≠ [] ∧ ∀ c ∈ x, c.isDigit)
    (hrx : digitsToNat g1 < U64M) (htx : digitsToNat g9 < U64M) :
    get_sys_traffic
        ["lo: 1 2 3 4 5 6 7 8 9 1 2".data,
         mkIfLine "eth0".data [g1, g2, g3, g4, g5, g6, g7, g8, g9, g10, g11],
         "docker0: 3 4 5 6 7 8 9 1 2 3 4".data,
         "vnet1: 5 6 7 8 9 1 2 3 4 5 6".data] =
      some (digitsToNat g1, digitsToNat g9) := by
  have h1 := hgs g1 (by simp)
  have htail := trafficTail_join g1 [g2, g3, g4, g5, g6, g7, g8, g9, g10, g11]
    h1.1 h1.2 (fun x hx => hgs x (List.mem_cons_of_mem _ hx)) rfl
  have hsearch := trafficSearch_mkIfLine "eth0".data
    [g1, g2, g3, g4, g5, g6, g7, g8, g9, g10, g11] (by decide) (by decide) htail
  have h9 := hgs g9 (by simp)
  have hprx : parseU64 ([g1, g2, g3, g4, g5, g6, g7, g8, g9, g10, g11].headD []) =
      some (digitsToNat g1) := parseU64_digits g1 h1.1 h1.2 hrx
  have hptx : parseU64
      (([g1, g2, g3, g4, g5, g6, g7, g8, g9, g10, g11][8]?).getD []) =
      some (digitsToNat g9) := parseU64_digits g9 h9.1 h9.2 htx
  have hstep := trafficStep_mkIfLine (0, 0) "eth0".data
    [g1, g2, g3, g4, g5, g6, g7, g8, g9, g10, g11]
    (digitsToNat g1) (digitsToNat g9) hsearch (by decide) hprx hptx
  have hlo : trafficSearch "lo: 1 2 3 4 5 6 7 8 9 1 2".data =
      some ("lo".data, [['1'], ['2'], ['3'], ['4'], ['5'], ['6'], ['7'],
        ['8'], ['9'], ['1'], ['2']]) := by decide
  have hdocker : trafficSearch "docker0: 3 4 5 6 7 8 9 1 2 3 4".data =
      some ("docker0".data, [['3'], ['4'], ['5'], ['6'], ['7'], ['8'], ['9'],
        ['1'], ['2'], ['3'], ['4']]) := by decide
  have hvnet : trafficSearch "vnet1: 5 6 7 8 9 1 2 3 4 5 6".data =
      some ("vnet1".data, [['5'], ['6'], ['7'], ['8'], ['9'], ['1'], ['2'],
        ['3'], ['4'], ['5'], ['6']]) := by decide
  unfold get_sys_traffic
  rw [foldlM_traffic_some _ _ _ _
    (trafficStep_ignored (0, 0) _ _ _ hlo (by decide))]
  rw [foldlM_traffic_some _ _ _ _ hstep]
  rw [foldlM_traffic_some _ _ _ _
    (trafficStep_ignored _ _ _ _ hdocker (by decide))]
  rw [foldlM_traffic_some _ _ _ _
    (trafficStep_ignored _ _ _ _ hvnet (by decide))]
  show some ((0 + digitsToNat g1) % U64M, (0 + digitsToNat g9) % U64M) = _
  rw [Nat.zero_add, Nat.zero_add, Nat.mod_eq_of_lt hrx, Nat.mod_eq_of_lt htx]

/-- Witness for C6: the `eth0` line carries receive bytes 100 and
transmit bytes 900; the `lo`, `docker0` and `vnet1` counters do not
appear in the totals. -/
theorem get_sys_traffic_filter_witness :
    get_sys_traffic
        ["lo: 1 2 3 4 5 6 7 8 9 1 2".data,
         mkIfLine "eth0".data
          ["100".data, "2".data, "3".data, "4".data, "5".data, "6".data,
           "7".data, "8".data, "900".data, "10".data, "11".data],
         "docker0: 3 4 5 6 7 8 9 1 2 3 4".data,
         "vnet1: 5 6 7 8 9 1 2 3 4 5 6".data] =
      some (digitsToNat "100".data, digitsToNat "900".data) :=
  get_sys_traffic_filter "100".data "2".data "3".data "4".data "5".data
    "6".data "7".data "8".data "900".data "10".data "11".data
    (by decide) (by decide) (by decide)

/-!
## C10 — substring semantics of the interface filter
-/

/-- C10: the interface filter is a substring match anywhere in the
name: `halo0` is neither a loopback nor a virtual interface name, yet
it contains the filter pattern `lo`, so it is ignored (first two
conjuncts), and a `halo0` entry with large counters contributes nothing
in any of the three filtering collectors: the live counter parser
`get_sys_traffic`, the rate sampler's counter loop `net_dev_sum`, and
the vnstat totals `get_vnstat_traffic` (last three conjuncts, whose
totals are exactly the `eth0` values). -/
theorem iface_filter_substring :
    containsSub "halo0".data "lo".data = true ∧
    ifaceIgnored "halo0".data = true ∧
    get_sys_traffic
        ["eth0: 11 2 3 4 5 6 7 8 99 10 11".data,
         "halo0: 1000 2 3 4 5 6 7 8 2000 10 11".data] = some (11, 99) ∧
    net_dev_sum
        ["eth0: 11 2 3 4 5 6 7 8 99 10 11".data,
         "halo0: 1000 2 3 4 5 6 7 8 2000 10 11".data] = some (11, 99) ∧
    get_vnstat_traffic 2026 10
        [⟨"eth0".data, 11, 99, [⟨2026, 10, 5, 7⟩]⟩,
         ⟨"halo0".data, 1000, 2000, [⟨2026, 10, 300, 400⟩]⟩] =
      (11, 99, 5, 7) := by
  refine ⟨by decide, by decide, by decide, by decide, by decide⟩

/-!
## C8 / C9 — `sample`
-/

theorem sample_vnstat (args : Args) (env : SampleEnv) (stat : StatRequest)
    (mt mu st2 sf ht hu : Nat)
    (hv : args.vnstat = true)
    (hmem : get_memory env.memLines = some (mt, mu, st2, sf))
    (hhdd : get_hdd env.hddOut = some (ht, hu)) :
    sample args env stat = some
      { stat with
        version := env.version, vnstat := args.vnstat,
        uptime := get_uptime env.uptimeSrc,
        load_1 := env.load1, load_5 := env.load5, load_15 := env.load15,
        memory_total := mt, memory_used := mu, swap_total := st2,
        swap_used := wsub64 st2 sf,
        hdd_total := ht, hdd_used := hu,
        network_in :=
          (get_vnstat_traffic env.nowYear env.nowMonth env.vnstatIfaces).1,
        network_out :=
          (get_vnstat_traffic env.nowYear env.nowMonth env.vnstatIfaces).2.1,
        last_network_in :=
          wsub64 (get_vnstat_traffic env.nowYear env.nowMonth env.vnstatIfaces).1
            (get_vnstat_traffic env.nowYear env.nowMonth env.vnstatIfaces).2.2.1,
        last_network_out :=
          wsub64 (get_vnstat_traffic env.nowYear env.nowMonth env.vnstatIfaces).2.1
            (get_vnstat_traffic env.nowYear env.nowMonth env.vnstatIfaces).2.2.2,
        cpu := env.cpuPercent,
        network_rx := env.netSpeed.netrx,
        network_tx := env.netSpeed.nettx } := by
  unfold sample
  rw [hmem, hhdd, hv]
  rfl

theorem sample_sys (args : Args) (env : SampleEnv) (stat : StatRequest)
    (mt mu st2 sf ht hu ni nout : Nat)
    (hv : args.vnstat = false)
    (hmem : get_memory env.memLines = some (mt, mu, st2, sf))
    (hhdd : get_hdd env.hddOut = some (ht, hu))
    (htraffic : get_sys_traffic env.netDevLines = some (ni, nout)) :
    sample args env stat = some
      { stat with
        version := env.version, vnstat := args.vnstat,
        uptime := get_uptime env.uptimeSrc,
        load_1 := env.load1, load_5 := env.load5, load_15 := env.load15,
        memory_total := mt, memory_used := mu, swap_total := st2,
        swap_used := wsub64 st2 sf,
        hdd_total := ht, hdd_used := hu,
        network_in := ni, network_out := nout,
        cpu := env.cpuPercent,
        network_rx := env.netSpeed.netrx,
        network_tx := env.netSpeed.nettx } := by
  unfold sample
  rw [hmem, hhdd, hv, htraffic]
  rfl

theorem sample_none_cases (args : Args) (env : SampleEnv) (stat : StatRequest)
    (st' : StatRequest) (hsample : sample args env stat = some st') :
    ∃ mt mu st2 sf ht hu,
      get_memory env.memLines = some (mt, mu, st2, sf) ∧
      get_hdd env.hddOut = some (ht, hu) ∧
      (args.vnstat = false → ∃ ni nout,
        get_sys_traffic env.netDevLines = some (ni, nout)) := by
  unfold sample at hsample
  cases hmem : get_memory env.memLines with
  | none => rw [hmem] at hsample; cases hsample
  | some q =>
    obtain ⟨mt, mu, st2, sf⟩ := q
    rw [hmem] at hsample
    cases hhdd : get_hdd env.hddOut with
    | none => rw [hhdd] at hsample; simp at hsample
    | some p =>
      obtain ⟨ht, hu⟩ := p
      rw [hhdd] at hsample
      refine ⟨mt, mu, st2, sf, ht, hu, rfl, rfl, ?_⟩
      intro hv
      rw [hv] at hsample
      cases htr : get_sys_traffic env.netDevLines with
      | none => rw [htr] at hsample; simp at hsample
      | some r =>
        obtain ⟨ni, nout⟩ := r
        exact ⟨ni, nout, rfl⟩

/-- C9: a successful `sample` call with traffic-accounting mode
disabled leaves `last_network_in` / `last_network_out` exactly as they
were in the incoming record (they are written only in the vnstat
branch), and in either mode `sample` never writes the two connectivity
flags computed by `get_network`. -/
theorem sample_frame (args : Args) (env : SampleEnv) (stat st' : StatRequest)
    (hsample : sample args env stat = some st') :
    (args.vnstat = false →
      st'.last_network_in = stat.last_network_in ∧
      st'.last_network_out = stat.last_network_out) ∧
    st'.online4 = stat.online4 ∧ st'.online6 = stat.online6 := by
  obtain ⟨mt, mu, st2, sf, ht, hu, hmem, hhdd, htr⟩ :=
    sample_none_cases args env stat st' hsample
  cases hv : args.vnstat with
  | true =>
    rw [sample_vnstat args env stat mt mu st2 sf ht hu hv hmem hhdd] at hsample
    obtain rfl : _ = st' := Option.some.inj hsample
    exact ⟨fun hfalse => absurd hfalse (by decide), rfl, rfl⟩
  | false =>
    obtain ⟨ni, nout, hsys⟩ := htr hv
    rw [sample_sys args env stat mt mu st2 sf ht hu ni nout hv hmem hhdd hsys]
      at hsample
    obtain rfl : _ = st' := Option.some.inj hsample
    exact ⟨fun _ => ⟨rfl, rfl⟩, rfl, rfl⟩

/-- Witness for C9: a concrete successful `sample` run with
traffic-accounting mode disabled; the incoming record's
`last_network_in = 123`, `last_network_out = 456`, `online4 = true`,
`online6 = false` all survive unchanged in the output record. -/
theorem sample_frame_witness :
    ((Args.mk false).vnstat = false →
      (StatRequest.mk "1.2.3".data false 12 1 2 3 1000 600 500 0 40000 12345
          11 99 123 456 7 33 44 true false).last_network_in =
        (StatRequest.mk "v0".data true 999 9 9 9 9 9 9 9 9 9 9 9 123 456 9 9 9
          true false).last_network_in ∧
      (StatRequest.mk "1.2.3".data false 12 1 2 3 1000 600 500 0 40000 12345
          11 99 123 456 7 33 44 true false).last_network_out =
        (StatRequest.mk "v0".data true 999 9 9 9 9 9 9 9 9 9 9 9 123 456 9 9 9
          true false).last_network_out) ∧
    (StatRequest.mk "1.2.3".data false 12 1 2 3 1000 600 500 0 40000 12345
        11 99 123 456 7 33 44 true false).online4 =
      (StatRequest.mk "v0".data true 999 9 9 9 9 9 9 9 9 9 9 9 123 456 9 9 9
        true false).online4 ∧
    (StatRequest.mk "1.2.3".data false 12 1 2 3 1000 600 500 0 40000 12345
        11 99 123 456 7 33 44 true false).online6 =
      (StatRequest.mk "v0".data true 999 9 9 9 9 9 9 9 9 9 9 9 123 456 9 9 9
        true false).online6 :=
  sample_frame ⟨false⟩
    ⟨"1.2.3".data, "12.3 45.6".data, 1, 2, 3,
      ["MemTotal: 1000 kB".data, "MemFree: 200 kB".data, "Buffers: 50 kB".data,
       "Cached: 50 kB".data, "SReclaimable: 100 kB".data,
       "SwapTotal: 500 kB".data, "SwapFree: 500 kB".data],
      "Filesystem Type 1M-blocks Used Available Use% Mounted on\ntotal - 40000 12345 25000 33% -".data,
      2026, 10, [⟨"eth0".data, 11, 99, [⟨2026, 10, 5, 7⟩]⟩],
      ["eth0: 11 2 3 4 5 6 7 8 99 10 11".data], 7, ⟨1, 2, 33, 44, 5, 6⟩⟩
    (StatRequest.mk "v0".data true 999 9 9 9 9 9 9 9 9 9 9 9 123 456 9 9 9
      true false)
    (StatRequest.mk "1.2.3".data false 12 1 2 3 1000 600 500 0 40000 12345
      11 99 123 456 7 33 44 true false)
    (by decide)

theorem vnstatMonthAcc_eq (y : Int) (m : Nat) (ms : List VnstatMonth) :
    ∀ c d : Nat, c < U64M → d < U64M →
    vnstatMonthAcc y m (c, d) ms =
      ((c + ((ms.filter (fun e => decide (y = e.year) && decide (m = e.month))).map
        (fun e => e.rx)).sum) % U64M,
       (d + ((ms.filter (fun e => decide (y = e.year) && decide (m = e.month))).map
        (fun e => e.tx)).sum) % U64M) := by
  induction ms with
  | nil =>
    intro c d hc hd
    simp [vnstatMonthAcc, Nat.mod_eq_of_lt hc, Nat.mod_eq_of_lt hd]
  | cons e es ih =>
    intro c d hc hd
    by_cases h : y = e.year ∧ m = e.month
    · have hcond : ¬(y ≠ e.year ∨ m ≠ e.month) := by
        push_neg
        exact ⟨h.1, h.2⟩
      have hp : (decide (y = e.year) && decide (m = e.month)) = true := by
        simp [h.1, h.2]
      simp only [vnstatMonthAcc]
      rw [if_neg hcond]
      rw [ih ((c + e.rx) % U64M) ((d + e.tx) % U64M)
        (Nat.mod_lt _ U64M_pos) (Nat.mod_lt _ U64M_pos)]
      rw [@List.filter_cons_of_pos _
        (fun x => decide (y = x.year) && decide (m = x.month)) e es hp]
      simp only [List.map_cons, List.sum_cons, Nat.mod_add_mod, Nat.add_assoc]
    · have hcond : y ≠ e.year ∨ m ≠ e.month := by
        by_contra hc2
        push_neg at hc2
        exact h ⟨hc2.1, hc2.2⟩
      have hp : ¬((decide (y = e.year) && decide (m = e.month)) = true) := by
        simp only [Bool.and_eq_true, decide_eq_true_eq]
        exact fun hcc => h ⟨hcc.1, hcc.2⟩
      simp only [vnstatMonthAcc]
      rw [if_pos hcond]
      rw [ih c d hc hd]
      rw [@List.filter_cons_of_neg _
        (fun x => decide (y = x.year) && decide (m = x.month)) e es hp]

theorem vnstatIfaceAcc_eq (y : Int) (m : Nat) (ifs : List VnstatIface) :
    ∀ a b c d : Nat, a < U64M → b < U64M → c < U64M → d < U64M →
    vnstatIfaceAcc y m (a, b, c, d) ifs =
      ((a + ((ifs.filter (fun i => !ifaceIgnored i.name)).map
          (fun i => i.totalRx)).sum) % U64M,
       (b + ((ifs.filter (fun i => !ifaceIgnored i.name)).map
          (fun i => i.totalTx)).sum) % U64M,
       (c + ((ifs.filter (fun i => !ifaceIgnored i.name)).map
          (fun i => ((i.months.filter (fun e => decide (y = e.year) &&
            decide (m = e.month))).map (fun e => e.rx)).sum)).sum) % U64M,
       (d + ((ifs.filter (fun i => !ifaceIgnored i.name)).map
          (fun i => ((i.months.filter (fun e => decide (y = e.year) &&
            decide (m = e.month))).map (fun e => e.tx)).sum)).sum) % U64M) := by
  induction ifs with
  | nil =>
    intro a b c d ha hb hc hd
    simp [vnstatIfaceAcc, Nat.mod_eq_of_lt ha, Nat.mod_eq_of_lt hb,
      Nat.mod_eq_of_lt hc, Nat.mod_eq_of_lt hd]
  | cons i is ih =>
    intro a b c d ha hb hc hd
    by_cases hig : ifaceIgnored i.name
    · have hp : ¬((!ifaceIgnored i.name) = true) := by simp [hig]
      simp only [vnstatIfaceAcc]
      rw [if_pos hig]
      rw [ih a b c d ha hb hc hd]
      rw [@List.filter_cons_of_neg _ (fun x => !ifaceIgnored x.name) i is hp]
    · have hp : (!ifaceIgnored i.name) = true := by simp [hig]
      simp only [vnstatIfaceAcc]
      rw [if_neg hig]
      rw [vnstatMonthAcc_eq y m i.months c d hc hd]
      rw [ih _ _ _ _ (Nat.mod_lt _ U64M_pos) (Nat.mod_lt _ U64M_pos)
        (Nat.mod_lt _ U64M_pos) (Nat.mod_lt _ U64M_pos)]
      rw [@List.filter_cons_of_pos _ (fun x => !ifaceIgnored x.name) i is hp]
      simp only [List.map_cons, List.sum_cons, Nat.mod_add_mod, Nat.add_assoc]

/-- C8: in traffic-accounting mode, `get_vnstat_traffic` accumulates,
over the non-filtered interfaces, the all-time rx/tx into the totals
and the rx/tx of exactly the calendar-month entries matching the
current local year and month into the month totals (first conjunct, the
sums `S1`–`S4` being fixed by `hS1`–`hS4`); the assembler then
publishes the totals and sets
`last_network_in/out = total - month_total` (remaining conjuncts). -/
theorem get_vnstat_traffic_spec (args : Args) (env : SampleEnv)
    (stat st' : StatRequest) (S1 S2 S3 S4 : Nat)
    (hS1 : S1 = ((env.vnstatIfaces.filter (fun i => !ifaceIgnored i.name)).map
      (fun i => i.totalRx)).sum)
    (hS2 : S2 = ((env.vnstatIfaces.filter (fun i => !ifaceIgnored i.name)).map
      (fun i => i.totalTx)).sum)
    (hS3 : S3 = ((env.vnstatIfaces.filter (fun i => !ifaceIgnored i.name)).map
      (fun i => ((i.months.filter (fun e => decide (env.nowYear = e.year) &&
        decide (env.nowMonth = e.month))).map (fun e => e.rx)).sum)).sum)
    (hS4 : S4 = ((env.vnstatIfaces.filter (fun i => !ifaceIgnored i.name)).map
      (fun i => ((i.months.filter (fun e => decide (env.nowYear = e.year) &&
        decide (env.nowMonth = e.month))).map (fun e => e.tx)).sum)).sum)
    (hv : args.vnstat = true)
    (hsample : sample args env stat = some st')
    (hb1 : S1 < U64M) (hb2 : S2 < U64M)
    (hle1 : S3 ≤ S1) (hle2 : S4 ≤ S2) :
    get_vnstat_traffic env.nowYear env.nowMonth env.vnstatIfaces =
      (S1, S2, S3, S4) ∧
    st'.network_in = S1 ∧ st'.network_out = S2 ∧
    st'.last_network_in = S1 - S3 ∧ st'.last_network_out = S2 - S4 := by
  have hb3 : S3 < U64M := lt_of_le_of_lt hle1 hb1
  have hb4 : S4 < U64M := lt_of_le_of_lt hle2 hb2
  have hmain : get_vnstat_traffic env.nowYear env.nowMonth env.vnstatIfaces =
      (S1, S2, S3, S4) := by
    unfold get_vnstat_traffic
    rw [vnstatIfaceAcc_eq env.nowYear env.nowMonth env.vnstatIfaces 0 0 0 0
      U64M_pos U64M_pos U64M_pos U64M_pos]
    rw [← hS1, ← hS2, ← hS3, ← hS4]
    simp only [Nat.zero_add]
    rw [Nat.mod_eq_of_lt hb1, Nat.mod_eq_of_lt hb2, Nat.mod_eq_of_lt hb3,
      Nat.mod_eq_of_lt hb4]
  refine ⟨hmain, ?_⟩
  obtain ⟨mt, mu, st2, sf, ht, hu, hmem, hhdd, _⟩ :=
    sample_none_cases args env stat st' hsample
  rw [sample_vnstat args env stat mt mu st2 sf ht hu hv hmem hhdd] at hsample
  obtain rfl : _ = st' := Option.some.inj hsample
  refine ⟨?_, ?_, ?_, ?_⟩ <;>
    simp only [hmain] <;>
    simp [wsub64_of_le S1 S3 hle1 hb1, wsub64_of_le S2 S4 hle2 hb2]

/-- Witness for C8: one non-filtered interface `eth0` with all-time
totals (11, 99) and a single current-month entry (5, 7); the assembler
publishes `last_network_in = 11 - 5` and `last_network_out = 99 - 7`. -/
theorem get_vnstat_traffic_spec_witness :
    get_vnstat_traffic
        (SampleEnv.mk "1.2.3".data "12.3 45.6".data 1 2 3
          ["MemTotal: 1000 kB".data, "MemFree: 200 kB".data,
           "Buffers: 50 kB".data, "Cached: 50 kB".data,
           "SReclaimable: 100 kB".data, "SwapTotal: 500 kB".data,
           "SwapFree: 500 kB".data]
          "Filesystem Type 1M-blocks Used Available Use% Mounted on\ntotal - 40000 12345 25000 33% -".data
          2026 10 [⟨"eth0".data, 11, 99, [⟨2026, 10, 5, 7⟩]⟩]
          ["eth0: 11 2 3 4 5 6 7 8 99 10 11".data] 7 ⟨1, 2, 33, 44, 5, 6⟩).nowYear
        (SampleEnv.mk "1.2.3".data "12.3 45.6".data 1 2 3
          ["MemTotal: 1000 kB".data, "MemFree: 200 kB".data,
           "Buffers: 50 kB".data, "Cached: 50 kB".data,
           "SReclaimable: 100 kB".data, "SwapTotal: 500 kB".data,
           "SwapFree: 500 kB".data]
          "Filesystem Type 1M-blocks Used Available Use% Mounted on\ntotal - 40000 12345 25000 33% -".data
          2026 10 [⟨"eth0".data, 11, 99, [⟨2026, 10, 5, 7⟩]⟩]
          ["eth0: 11 2 3 4 5 6 7 8 99 10 11".data] 7 ⟨1, 2, 33, 44, 5, 6⟩).nowMonth
        (SampleEnv.mk "1.2.3".data "12.3 45.6".data 1 2 3
          ["MemTotal: 1000 kB".data, "MemFree: 200 kB".data,
           "Buffers: 50 kB".data, "Cached: 50 kB".data,
           "SReclaimable: 100 kB".data, "SwapTotal: 500 kB".data,
           "SwapFree: 500 kB".data]
          "Filesystem Type 1M-blocks Used Available Use% Mounted on\ntotal - 40000 12345 25000 33% -".data
          2026 10 [⟨"eth0".data, 11, 99, [⟨2026, 10, 5, 7⟩]⟩]
          ["eth0: 11 2 3 4 5 6 7 8 99 10 11".data] 7 ⟨1, 2, 33, 44, 5, 6⟩).vnstatIfaces =
      (11, 99, 5, 7) ∧
    (StatRequest.mk "1.2.3".data true 12 1 2 3 1000 600 500 0 40000 12345
        11 99 6 92 7 33 44 true false).network_in = 11 ∧
    (StatRequest.mk "1.2.3".data true 12 1 2 3 1000 600 500 0 40000 12345
        11 99 6 92 7 33 44 true false).network_out = 99 ∧
    (StatRequest.mk "1.2.3".data true 12 1 2 3 1000 600 500 0 40000 12345
        11 99 6 92 7 33 44 true false).last_network_in = 11 - 5 ∧
    (StatRequest.mk "1.2.3".data true 12 1 2 3 1000 600 500 0 40000 12345
        11 99 6 92 7 33 44 true false).last_network_out = 99 - 7 :=
  get_vnstat_traffic_spec ⟨true⟩
    ⟨"1.2.3".data, "12.3 45.6".data, 1, 2, 3,
      ["MemTotal: 1000 kB".data, "MemFree: 200 kB".data, "Buffers: 50 kB".data,
       "Cached: 50 kB".data, "SReclaimable: 100 kB".data,
       "SwapTotal: 500 kB".data, "SwapFree: 500 kB".data],
      "Filesystem Type 1M-blocks Used Available Use% Mounted on\ntotal - 40000 12345 25000 33% -".data,
      2026, 10, [⟨"eth0".data, 11, 99, [⟨2026, 10, 5, 7⟩]⟩],
      ["eth0: 11 2 3 4 5 6 7 8 99 10 11".data], 7, ⟨1, 2, 33, 44, 5, 6⟩⟩
    (StatRequest.mk "v0".data true 999 9 9 9 9 9 9 9 9 9 9 9 123 456 9 9 9
      true false)
    (StatRequest.mk "1.2.3".data true 12 1 2 3 1000 600 500 0 40000 12345
      11 99 6 92 7 33 44 true false)
    11 99 5 7 (by decide) (by decide) (by decide) (by decide) (by decide)
    (by decide) (by decide) (by decide) (by decide) (by decide)
